import Mathlib

/-!
Verification development for the seal-label-maker core: the
order-to-sticker transformer (`order_processor.py`) and the label layout
engine (`pdf_generator.py`).

The Python source is shallowly embedded below.  Python strings are Lean
`String`s; Python string primitives (`str.lower`, `str.strip`,
`str.startswith`, substring `in`, slicing) are modelled on the underlying
character list (`String.data`), which matches Python's per-code-point
semantics.  Dictionary fields that may be absent are modelled as `Option`
fields; Python `dict.get(k, d)` becomes `Option.getD`.  Printing a
diagnostic is modelled by returning the diagnostic string alongside the
result.  In-place mutation of the sticker list during group numbering is
rendered as a function returning the updated list: the Python pass leaves
the list object and its order unchanged and only overwrites the two
numbering fields, each sticker's new number being one plus the number of
earlier stickers with the same address key (its 1-based position in its
insertion-ordered group) and its total being the number of stickers with
that key in the whole list (the group's length).
-/

/-- Python `str.lower()` (per-character lowercasing). -/
def pyLower (s : String) : String :=
  String.mk (s.data.map Char.toLower)

/-- Python `str.strip()`: remove leading and trailing whitespace. -/
def pyStrip (s : String) : String :=
  String.mk (((s.data.dropWhile Char.isWhitespace).reverse.dropWhile Char.isWhitespace).reverse)

/-- Python `s.startswith(pre)`. -/
def pyStartswith (s pre : String) : Bool :=
  List.isPrefixOf pre.data s.data

/-- Helper for `pyIn`: does `needle` occur as a contiguous run inside the list? -/
def pyInAux (needle : List Char) : List Char → Bool
  | [] => needle.isEmpty
  | c :: rest => List.isPrefixOf needle (c :: rest) || pyInAux needle rest

/-- Python substring test `needle in hay`. -/
def pyIn (needle hay : String) : Bool :=
  pyInAux needle.data hay.data

/-- Python `sep.join(parts)`. -/
def joinSep (sep : String) : List String → String
  | [] => ""
  | [x] => x
  | x :: y :: rest => x ++ sep ++ joinSep sep (y :: rest)

/-- `order_processor.LOCAL_DELIVERY_CITIES` (module-level constant). -/
def LOCAL_DELIVERY_CITIES : List String :=
  ["Lombard", "Glen Ellyn", "Addison", "Wheaton", "Villa Park"]

/-- `order_processor.StickerData`. -/
structure StickerData where
  order_name : String
  customer_name : String
  address_line1 : String
  address_line2 : String
  city : String
  state : String
  zip_code : String
  quantity : Int
  product_name : String
  variant_info : String
  requires_shipping : Bool
  sticker_number : Nat := 1
  total_for_address : Nat := 1

/-- A Shopify `customer` sub-dictionary. -/
structure Customer where
  first_name : Option String := none
  last_name : Option String := none

/-- A Shopify `shipping_address` sub-dictionary. -/
structure Address where
  address1 : Option String := none
  address2 : Option String := none
  city : Option String := none
  province_code : Option String := none
  province : Option String := none
  zip : Option String := none

/-- A line-item `properties` entry (name/value pair). -/
structure LineProp where
  name : Option String := none
  value : Option String := none

/-- A Shopify `line_items` entry. -/
structure LineItem where
  quantity : Option Int := none
  name : Option String := none
  variant_title : Option String := none
  properties : List LineProp := []

/-- A Shopify order dictionary (the fields the processor reads). -/
structure Order where
  name : Option String := none
  customer : Option Customer := none
  shipping_address : Option Address := none
  line_items : List LineItem := []

/-- `order_processor.OrderProcessor` (its one attribute). -/
structure OrderProcessor where
  local_cities : List String

/-- `OrderProcessor.__init__`: `self.local_cities = [city.lower() for city in (local_cities or LOCAL_DELIVERY_CITIES)]`.  Python `or` falls back to the default list when the argument is `None` or the empty list. -/
def OrderProcessor.init (cities : Option (List String)) : OrderProcessor :=
  ⟨(match cities with
    | some l => if l.isEmpty then LOCAL_DELIVERY_CITIES else l
    | none => LOCAL_DELIVERY_CITIES).map pyLower⟩

/-- `OrderProcessor.is_local_delivery`. -/
def OrderProcessor.is_local_delivery (p : OrderProcessor) (city : String) : Bool :=
  if city = "" then false
  else decide (pyStrip (pyLower city) ∈ p.local_cities)

/-- The customer-name resolution at the top of `_process_single_order`:
`f"{customer.get('first_name','')} {customer.get('last_name','')}".strip()`,
falling back to `"Unknown Customer"` when blank. -/
def customerNameOf (order : Order) : String :=
  let c := order.customer.getD {}
  let n := pyStrip (c.first_name.getD "" ++ " " ++ c.last_name.getD "")
  if n = "" then "Unknown Customer" else n

/-- The `property_parts` loop of `_process_single_order`: keep each property
value that is non-empty and whose name does not start with `_`. -/
def propertyParts : List LineProp → List String
  | [] => []
  | pr :: rest =>
    let prop_name := pr.name.getD ""
    let prop_value := pr.value.getD ""
    if (prop_value != "") && !(pyStartswith prop_name "_") then
      prop_value :: propertyParts rest
    else
      propertyParts rest

/-- The `variant_info` construction of `_process_single_order`: the variant
title (when non-empty and not `"Default Title"`) followed by the qualifying
property values, joined with `" / "`. -/
def variantInfoOf (item : LineItem) : String :=
  let variant_title := item.variant_title.getD ""
  let property_parts := propertyParts item.properties
  let vp0 : List String :=
    if (variant_title != "") && (variant_title != "Default Title") then [variant_title] else []
  let variant_parts : List String :=
    if property_parts.isEmpty then vp0 else vp0 ++ property_parts
  if variant_parts.isEmpty then "" else joinSep " / " variant_parts

/-- The per-line-item sticker emission of `_process_single_order`: one
sticker per unit, `for _ in range(quantity)` (a non-positive quantity emits
nothing, exactly as Python's `range`). -/
def stickersForItem (p : OrderProcessor) (order : Order) (shipping : Address)
    (item : LineItem) : List StickerData :=
  let order_name := order.name.getD "Unknown"
  let customer_name := customerNameOf order
  let address_line1 := shipping.address1.getD ""
  let address_line2 := shipping.address2.getD ""
  let city := shipping.city.getD ""
  let state := shipping.province_code.getD (shipping.province.getD "")
  let zip_code := shipping.zip.getD ""
  let requires_shipping := !(p.is_local_delivery city)
  let quantity := item.quantity.getD 1
  let product_name := item.name.getD "Unknown Product"
  let variant_info := variantInfoOf item
  List.replicate quantity.toNat
    { order_name := order_name
      customer_name := customer_name
      address_line1 := address_line1
      address_line2 := address_line2
      city := city
      state := state
      zip_code := zip_code
      quantity := 1
      product_name := product_name
      variant_info := variant_info
      requires_shipping := requires_shipping }

/-- `OrderProcessor._process_single_order`.  The returned `String` list
models the `[WARNING]` diagnostics the Python code prints; the function is
total, so malformed orders are skipped, never raised on. -/
def _process_single_order (p : OrderProcessor) (order : Order) :
    List StickerData × List String :=
  let order_name := order.name.getD "Unknown"
  match order.shipping_address with
  | none =>
    ([], ["  [WARNING] Order " ++ order_name ++ " has no shipping address, skipping"])
  | some shipping =>
    if order.line_items.isEmpty then
      ([], ["  [WARNING] Order " ++ order_name ++ " has no line items, skipping"])
    else
      (order.line_items.flatMap (stickersForItem p order shipping), [])

/-- The address-group key built by `_calculate_sticker_numbers`:
`f"{sticker.customer_name}|{sticker.address_line1}|{sticker.city}"`. -/
def addressKey (s : StickerData) : String :=
  s.customer_name ++ "|" ++ s.address_line1 ++ "|" ++ s.city

/-- Number of stickers in `l` whose address key is `k`. -/
def countKey (k : String) (l : List StickerData) : Nat :=
  l.countP (fun s => addressKey s == k)

/-- Functional rendering of the in-place numbering pass (see the header
comment): `all` is the full list, `seen` the already-processed prefix. -/
def renumberAux (all : List StickerData) : List StickerData → List StickerData → List StickerData
  | _, [] => []
  | seen, s :: rest =>
    { s with sticker_number := countKey (addressKey s) seen + 1
             total_for_address := countKey (addressKey s) all }
      :: renumberAux all (seen ++ [s]) rest

/-- `OrderProcessor._calculate_sticker_numbers` (result of the in-place pass). -/
def _calculate_sticker_numbers (stickers : List StickerData) : List StickerData :=
  renumberAux stickers [] stickers

/-- `OrderProcessor.create_stickers_from_orders`. -/
def create_stickers_from_orders (p : OrderProcessor) (orders : List Order) :
    List StickerData :=
  _calculate_sticker_numbers (orders.flatMap fun o => (_process_single_order p o).1)

/-- `pdf_generator.GRIND_TYPES` (ordered pattern list). -/
def GRIND_TYPES : List String :=
  ["Whole Bean",
   "Ground for Auto Drip",
   "Ground Auto Drip",
   "Auto Drip",
   "Ground for Drip",
   "French Press",
   "Ground for French Press",
   "Ground for Espresso",
   "Espresso"]

/-- The normalization branch inside `extract_grind_type`'s loop body. -/
def normalizeGrind (grind : String) : String :=
  if pyIn "whole bean" (pyLower grind) then "Whole Bean"
  else if pyIn "french press" (pyLower grind) then "French Press"
  else if pyIn "auto drip" (pyLower grind) || pyIn "for drip" (pyLower grind) then "Ground Auto Drip"
  else if pyIn "espresso" (pyLower grind) then "Ground Espresso"
  else grind

/-- The scan loop of `extract_grind_type` over the pattern list. -/
def grindScan (text : String) : List String → Option String
  | [] => none
  | g :: rest =>
    if pyIn (pyLower g) text then some (normalizeGrind g) else grindScan text rest

/-- `pdf_generator.extract_grind_type`. -/
def extract_grind_type (variant_info product_name : String) : Option String :=
  grindScan (pyLower (variant_info ++ " " ++ product_name)) GRIND_TYPES

/-- The four canonical grind labels named by the spec. -/
def CANONICAL_GRINDS : List String :=
  ["Whole Bean", "French Press", "Ground Auto Drip", "Ground Espresso"]

/-- One point (1/72 inch) as the unit; `reportlab`'s `inch` is 72 points. -/
def inch : ℚ := 72

/-- The grid-specification dictionary (`AVERY_5160` in the source). -/
structure GridSpec where
  page_width : ℚ
  page_height : ℚ
  label_width : ℚ
  label_height : ℚ
  columns : Nat
  rows : Nat
  top_margin : ℚ
  left_margin : ℚ
  column_gap : ℚ
  row_gap : ℚ

/-- `pdf_generator.AVERY_5160`. -/
def AVERY_5160 : GridSpec where
  page_width := 8.5 * inch
  page_height := 11 * inch
  label_width := 2.625 * inch
  label_height := 1.0 * inch
  columns := 3
  rows := 10
  top_margin := 0.5 * inch
  left_margin := 0.1875 * inch
  column_gap := 0.125 * inch
  row_gap := 0.0 * inch

/-- The placement computed for one linear sticker index in
`PDFGenerator._draw_stickers`: page, row, column, whether a page break is
emitted before this label (`idx > 0 and position_on_page == 0`), and the
x/y origin, including the hard-coded third-column offset `0.157 * inch`. -/
structure Placement where
  page : Nat
  row : Nat
  col : Nat
  newPage : Bool
  x : ℚ
  y : ℚ

/-- The per-index body of the loop in `PDFGenerator._draw_stickers`. -/
def placeSticker (spec : GridSpec) (idx : Nat) : Placement :=
  let labels_per_page := spec.columns * spec.rows
  let page_num := idx / labels_per_page
  let position_on_page := idx % labels_per_page
  let newPage := decide (0 < idx ∧ position_on_page = 0)
  let row := position_on_page / spec.columns
  let col := position_on_page % spec.columns
  let x0 := spec.left_margin + (col : ℚ) * (spec.label_width + spec.column_gap)
  let x := if col = 2 then x0 + 0.157 * inch else x0
  let y := spec.page_height - spec.top_margin
             - (row : ℚ) * (spec.label_height + spec.row_gap) - spec.label_height
  { page := page_num, row := row, col := col, newPage := newPage, x := x, y := y }

/-- The enumeration loop of `_draw_stickers`, pairing each sticker with its
placement; `idx` is the running linear index. -/
def drawAux (spec : GridSpec) : Nat → List StickerData → List (Placement × StickerData)
  | _, [] => []
  | idx, s :: rest => (placeSticker spec idx, s) :: drawAux spec (idx + 1) rest

/-- `PDFGenerator._draw_stickers` as a placement trace. -/
def _draw_stickers (spec : GridSpec) (stickers : List StickerData) :
    List (Placement × StickerData) :=
  drawAux spec 0 stickers

/-- Number of page breaks among `n` consecutive indices starting at `i`. -/
def boundariesFrom (spec : GridSpec) : Nat → Nat → Nat
  | _, 0 => 0
  | i, n + 1 =>
    (if (placeSticker spec i).newPage then 1 else 0) + boundariesFrom spec (i + 1) n

/-- Pages produced by a draw run: one page is open while any label is drawn,
and each emitted page break opens one more; an empty list opens none. -/
def pagesProduced (spec : GridSpec) (stickers : List StickerData) : Nat :=
  ((_draw_stickers spec stickers).countP fun ps => ps.1.newPage)
    + (if stickers.isEmpty then 0 else 1)

/-- The product line of `_draw_single_sticker`: `f"{sticker.quantity}- {sticker.product_name}"`. -/
def productLineOf (s : StickerData) : String :=
  toString s.quantity ++ "- " ++ s.product_name

/-- The truncation applied to the product line before drawing:
`product_line[:37] + "..."` when its length exceeds 40. -/
def renderedProductLine (s : StickerData) : String :=
  let product_line := productLineOf s
  if product_line.length > 40 then
    String.mk (product_line.data.take 37) ++ "..."
  else
    product_line

/-- The fields of a sticker other than the two group-numbering fields,
as a tuple (used to state frame conditions). -/
def frameOf (s : StickerData) :
    String × String × String × String × String × String × String × Int × String × String × Bool :=
  (s.order_name, s.customer_name, s.address_line1, s.address_line2, s.city,
    s.state, s.zip_code, s.quantity, s.product_name, s.variant_info, s.requires_shipping)

/-- Spec-side description of group numbering: assign consecutive sequence
numbers starting at `n` and the common group size `total` along a group. -/
def numberGroup (total : Nat) : Nat → List StickerData → List StickerData
  | _, [] => []
  | n, s :: rest =>
    { s with sticker_number := n, total_for_address := total } :: numberGroup total (n + 1) rest

/-- Spec-side description of `variant_info` (§4.1 step 6b): the variant
label when non-empty and not the sentinel, then every property value whose
name does not start with an underscore and whose value is non-empty, in
property-list order, joined with `" / "` (empty join gives `""`). -/
def variantInfoSpec (item : LineItem) : String :=
  let label := item.variant_title.getD ""
  let qualified : List String :=
    (if label ≠ "" ∧ label ≠ "Default Title" then [label] else []) ++
      item.properties.filterMap fun pr =>
        if pr.value.getD "" ≠ "" ∧ pyStartswith (pr.name.getD "") "_" = false then
          some (pr.value.getD "")
        else none
  joinSep " / " qualified

/-- Spec-side reading of the claimed city matching: case- and
whitespace-insensitive on both the query city and the configured names. -/
def specIsLocalBothTrimmed (cities : List String) (city : String) : Prop :=
  city ≠ "" ∧ ∃ c ∈ cities, pyStrip (pyLower city) = pyStrip (pyLower c)

/-- The processor built with the default city list. -/
def procDefault : OrderProcessor := OrderProcessor.init none

/-- Sample shipping address (from the source's standalone test data). -/
def addrSample : Address :=
  { address1 := some "123 Main St", address2 := some "Apt 4B", city := some "Lombard",
    province := some "IL", zip := some "60148" }

/-- Sample line item of quantity 2. -/
def itemSample : LineItem :=
  { quantity := some 2, name := some "Spiritus Coffee Subscription",
    variant_title := some "Medium Roast / Ground for Drip" }

/-- Sample well-formed order. -/
def orderSample : Order :=
  { name := some "SCC2031",
    customer := some { first_name := some "Randi", last_name := some "Abts" },
    shipping_address := some addrSample,
    line_items := [itemSample] }

/-- An order with no shipping address. -/
def orderNoShip : Order :=
  { name := some "SCC9000", line_items := [itemSample] }

/-- First collision order: customer name `"A|B"`, street `"C"`, city `"D"`. -/
def orderPipeA : Order :=
  { name := some "SCC1", customer := some { first_name := some "A|B" },
    shipping_address := some { address1 := some "C", city := some "D" },
    line_items := [{ quantity := some 1, name := some "P" }] }

/-- Second collision order: customer name `"A"`, street `"B|C"`, city `"D"`.
Its joined address key `"A|B|C|D"` equals `orderPipeA`'s although the
(customer_name, address_line1, city) tuples differ. -/
def orderPipeB : Order :=
  { name := some "SCC2", customer := some { first_name := some "A" },
    shipping_address := some { address1 := some "B|C", city := some "D" },
    line_items := [{ quantity := some 1, name := some "P" }] }

/-- A sticker whose product line is short. -/
def sampleSticker : StickerData :=
  { order_name := "SCC2031", customer_name := "Randi Abts", address_line1 := "123 Main St",
    address_line2 := "Apt 4B", city := "Lombard", state := "IL", zip_code := "60148",
    quantity := 1, product_name := "Coffee", variant_info := "", requires_shipping := false }

/-- A sticker whose product line exceeds 40 characters. -/
def longSticker : StickerData :=
  { order_name := "SCC2031", customer_name := "Randi Abts", address_line1 := "123 Main St",
    address_line2 := "", city := "Lombard", state := "IL", zip_code := "60148",
    quantity := 1, product_name := "Spiritus Coffee Subscription - Rotating Roasters",
    variant_info := "", requires_shipping := true }


/-! ## Helper lemmas -/

theorem addressKey_update (s : StickerData) (a b : Nat) :
    addressKey { s with sticker_number := a, total_for_address := b } = addressKey s := rfl

theorem frameOf_update (s : StickerData) (a b : Nat) :
    frameOf { s with sticker_number := a, total_for_address := b } = frameOf s := rfl

theorem renumberAux_map_frame (all : List StickerData) :
    ∀ (rest seen : List StickerData),
      (renumberAux all seen rest).map frameOf = rest.map frameOf := by
  intro rest
  induction rest with
  | nil => intro seen; rfl
  | cons s rest ih =>
    intro seen
    simp [renumberAux, frameOf_update, ih]

/-! ## C10 -/

/-- C10: the group-numbering pass modifies only `sticker_number` and
`total_for_address`: the list length, record order, and every other field
of every record are exactly as before the pass. -/
theorem C10_numbering_frame (l : List StickerData) :
    (_calculate_sticker_numbers l).map frameOf = l.map frameOf ∧
    (_calculate_sticker_numbers l).length = l.length := by
  have h := renumberAux_map_frame l l []
  refine ⟨h, ?_⟩
  have h2 := congrArg List.length h
  simpa using h2

/-! ## C1 -/

/-- C1: for every processed order (shipping address present) and every line
item with quantity `q`, exactly `max(q, 0)` stickers are emitted for that
line item, each with quantity field 1; `q = 0` emits zero records and a
negative `q` cannot crash the (total) transformer. -/
theorem C1_quantity_expansion (p : OrderProcessor) (order : Order) (a : Address)
    (h : order.shipping_address = some a) :
    (_process_single_order p order).1 =
      order.line_items.flatMap (stickersForItem p order a) ∧
    ∀ item : LineItem,
      (stickersForItem p order a item).length = (max (item.quantity.getD 1) 0).toNat ∧
      ∀ s ∈ stickersForItem p order a item, s.quantity = 1 := by
  constructor
  · unfold _process_single_order
    rw [h]
    by_cases he : order.line_items.isEmpty
    · have : order.line_items = [] := by
        cases hl : order.line_items with
        | nil => rfl
        | cons x xs => rw [hl] at he; simp [List.isEmpty] at he
      simp [he, this]
    · simp [he]
  · intro item
    constructor
    · simp only [stickersForItem, List.length_replicate]
      omega
    · intro s hs
      simp only [stickersForItem, List.mem_replicate] at hs
      rw [hs.2]

/-- Witness for C1 at the sample order. -/
theorem C1_quantity_expansion_witness :
    (_process_single_order procDefault orderSample).1 =
      orderSample.line_items.flatMap (stickersForItem procDefault orderSample addrSample) ∧
    ∀ item : LineItem,
      (stickersForItem procDefault orderSample addrSample item).length =
        (max (item.quantity.getD 1) 0).toNat ∧
      ∀ s ∈ stickersForItem procDefault orderSample addrSample item, s.quantity = 1 :=
  C1_quantity_expansion procDefault orderSample addrSample rfl

/-! ## C8 -/

/-- C8: each linear sticker index is placed at `page = i div labels_per_page`,
`row = (i mod labels_per_page) div columns`, `col = (i mod labels_per_page)
mod columns`, with `x = left_margin + col * (label_width + column_gap)` plus
the offset correction exactly when `col` is the corrected column (column 2);
on the 3-by-10 grid index 29 is page 0, row 9, col 2 and index 30 is page 1,
row 0, col 0. -/
theorem C8_grid_placement (spec : GridSpec) (idx : Nat) :
    (placeSticker spec idx).page = idx / (spec.columns * spec.rows) ∧
    (placeSticker spec idx).row = idx % (spec.columns * spec.rows) / spec.columns ∧
    (placeSticker spec idx).col = idx % (spec.columns * spec.rows) % spec.columns ∧
    (placeSticker spec idx).x =
      spec.left_margin
        + ((idx % (spec.columns * spec.rows) % spec.columns : Nat) : ℚ)
            * (spec.label_width + spec.column_gap)
        + (if idx % (spec.columns * spec.rows) % spec.columns = 2 then 0.157 * inch else 0) ∧
    ((placeSticker AVERY_5160 29).page = 0 ∧ (placeSticker AVERY_5160 29).row = 9 ∧
      (placeSticker AVERY_5160 29).col = 2) ∧
    ((placeSticker AVERY_5160 30).page = 1 ∧ (placeSticker AVERY_5160 30).row = 0 ∧
      (placeSticker AVERY_5160 30).col = 0) := by
  refine ⟨rfl, rfl, rfl, ?_, by decide, by decide⟩
  simp only [placeSticker]
  by_cases h : idx % (spec.columns * spec.rows) % spec.columns = 2
  · rw [if_pos h, if_pos h]
  · rw [if_neg h, if_neg h, add_zero]

/-! ## C9 -/

/-- C9: the product line is `"{quantity}- {product_name}"`; when it exceeds
40 characters it is rendered as its first 37 characters plus the three-dot
ellipsis marker, a 40-character result, and otherwise unchanged. -/
theorem C9_product_line_truncation (s : StickerData) :
    ((productLineOf s).length > 40 →
      renderedProductLine s = String.mk ((productLineOf s).data.take 37) ++ "..." ∧
      (renderedProductLine s).length = 40) ∧
    ((productLineOf s).length ≤ 40 → renderedProductLine s = productLineOf s) := by
  constructor
  · intro h
    have he : renderedProductLine s = String.mk ((productLineOf s).data.take 37) ++ "..." := by
      simp [renderedProductLine, h]
    refine ⟨he, ?_⟩
    rw [he, String.length_append]
    have h1 : (String.mk ((productLineOf s).data.take 37)).length
        = ((productLineOf s).data.take 37).length := rfl
    have h2 : ((productLineOf s).data.take 37).length = min 37 (productLineOf s).data.length :=
      List.length_take 37 (productLineOf s).data
    have h3 : (productLineOf s).length = (productLineOf s).data.length := rfl
    have h4 : ("..." : String).length = 3 := rfl
    rw [h1, h2, h4]
    omega
  · intro h
    have : ¬ (productLineOf s).length > 40 := by omega
    simp [renderedProductLine, this]

/-- Witness for C9 at a sticker whose product line has more than 40
characters. -/
theorem C9_product_line_truncation_witness :
    (productLineOf longSticker).length > 40 ∧
    (renderedProductLine longSticker =
        String.mk ((productLineOf longSticker).data.take 37) ++ "..." ∧
      (renderedProductLine longSticker).length = 40) :=
  ⟨by decide, (C9_product_line_truncation longSticker).1 (by decide)⟩

/-! ## C2 -/

theorem numberGroup_length (total : Nat) :
    ∀ (l : List StickerData) (n : Nat), (numberGroup total n l).length = l.length := by
  intro l
  induction l with
  | nil => intro n; rfl
  | cons s rest ih => intro n; simp [numberGroup, ih]

theorem numberGroup_map_number (total : Nat) :
    ∀ (l : List StickerData) (n : Nat),
      (numberGroup total n l).map (fun s => s.sticker_number) = List.range' n l.length := by
  intro l
  induction l with
  | nil => intro n; rfl
  | cons s rest ih => intro n; simp [numberGroup, List.range'_succ, ih]

theorem numberGroup_total (total : Nat) :
    ∀ (l : List StickerData) (n : Nat) (s : StickerData),
      s ∈ numberGroup total n l → s.total_for_address = total := by
  intro l
  induction l with
  | nil => intro n s hs; cases hs
  | cons x rest ih =>
    intro n s hs
    rcases List.mem_cons.mp hs with h | h
    · rw [h]
    · exact ih (n + 1) s h

theorem numberGroup_map_frame (total : Nat) :
    ∀ (l : List StickerData) (n : Nat),
      (numberGroup total n l).map frameOf = l.map frameOf := by
  intro l
  induction l with
  | nil => intro n; rfl
  | cons s rest ih => intro n; simp [numberGroup, frameOf_update, ih]

theorem renumberAux_filter (k : String) (all : List StickerData) :
    ∀ (rest seen : List StickerData),
      (renumberAux all seen rest).filter (fun s => addressKey s == k) =
        numberGroup (countKey k all) (countKey k seen + 1)
          (rest.filter (fun s => addressKey s == k)) := by
  intro rest
  induction rest with
  | nil => intro seen; rfl
  | cons s rest ih =>
    intro seen
    by_cases hk : (addressKey s == k) = true
    · have hek : addressKey s = k := by simpa using hk
      have hcnt : countKey k (seen ++ [s]) = countKey k seen + 1 := by
        simp [countKey, List.countP_append, List.countP_cons, hk]
      simp only [renumberAux, List.filter_cons, addressKey_update, hk, if_true, hek, ih, hcnt,
        numberGroup]
      simp [numberGroup]
    · have hcnt : countKey k (seen ++ [s]) = countKey k seen := by
        simp [countKey, List.countP_append, List.countP_cons, hk]
      simp only [renumberAux, List.filter_cons, addressKey_update, hk, if_false, ih, hcnt]
      simp [hk]

/-- C2 is FALSE as stated: the code keys address groups by the joined string
`f"{customer_name}|{address_line1}|{city}"`, not by the tuple.  The orders
`orderPipeA` (customer `"A|B"`, street `"C"`, city `"D"`) and `orderPipeB`
(customer `"A"`, street `"B|C"`, city `"D"`) have different tuples but the
same joined key `"A|B|C|D"`, so the single record of the tuple-group
(`"A"`, `"B|C"`, `"D"`) ends up with sequence number 2 and group size 2
instead of the claimed 1..N numbering with N = 1. -/
theorem C2_tuple_key_counterexample :
    ((create_stickers_from_orders procDefault [orderPipeA, orderPipeB]).filter
        (fun s => s.customer_name == "A" && s.address_line1 == "B|C" && s.city == "D")).map
        (fun s => (s.sticker_number, s.total_for_address)) = [(2, 2)] := by
  decide

/-- C2 (amended): after `create_stickers_from_orders`, for every address
group keyed by the joined string `customer_name ++ "|" ++ address_line1 ++
"|" ++ city`, the group's records carry sequence numbers exactly 1..N in
their original emission order and every record in the group has
`total_for_address` equal to the group size N. -/
theorem C2_amended_group_numbering (p : OrderProcessor) (orders : List Order) (k : String) :
    ((create_stickers_from_orders p orders).filter (fun s => addressKey s == k)).map
        (fun s => s.sticker_number) =
      List.range' 1
        ((create_stickers_from_orders p orders).filter (fun s => addressKey s == k)).length ∧
    (∀ s ∈ (create_stickers_from_orders p orders).filter (fun s => addressKey s == k),
      s.total_for_address =
        ((create_stickers_from_orders p orders).filter (fun s => addressKey s == k)).length) ∧
    ((create_stickers_from_orders p orders).filter (fun s => addressKey s == k)).map frameOf =
      ((orders.flatMap fun o => (_process_single_order p o).1).filter
          (fun s => addressKey s == k)).map frameOf := by
  have hfil : (create_stickers_from_orders p orders).filter (fun s => addressKey s == k) =
      numberGroup (countKey k (orders.flatMap fun o => (_process_single_order p o).1)) 1
        ((orders.flatMap fun o => (_process_single_order p o).1).filter
          (fun s => addressKey s == k)) := by
    have h := renumberAux_filter k (orders.flatMap fun o => (_process_single_order p o).1)
      (orders.flatMap fun o => (_process_single_order p o).1) []
    simpa [create_stickers_from_orders, _calculate_sticker_numbers, countKey] using h
  have hlen : ((orders.flatMap fun o => (_process_single_order p o).1).filter
        (fun s => addressKey s == k)).length =
      countKey k (orders.flatMap fun o => (_process_single_order p o).1) := by
    simp [countKey, List.countP_eq_length_filter]
  refine ⟨?_, ?_, ?_⟩
  · rw [hfil, numberGroup_map_number, numberGroup_length]
  · intro s hs
    rw [hfil] at hs
    rw [hfil, numberGroup_length, hlen]
    exact numberGroup_total _ _ _ _ hs
  · rw [hfil, numberGroup_map_frame]

/-- Witness for the amended C2 at the sample order (a group of size 2). -/
theorem C2_amended_group_numbering_witness :
    ((create_stickers_from_orders procDefault [orderSample]).filter
        (fun s => addressKey s == "Randi Abts|123 Main St|Lombard")).map
        (fun s => s.sticker_number) =
      List.range' 1
        ((create_stickers_from_orders procDefault [orderSample]).filter
          (fun s => addressKey s == "Randi Abts|123 Main St|Lombard")).length :=
  (C2_amended_group_numbering procDefault [orderSample] "Randi Abts|123 Main St|Lombard").1

/-! ## C3 -/

/-- C3 is FALSE as stated: the constructor lowercases the configured city
names but does not trim them, so matching is not whitespace-insensitive on
the configured side.  With configured list `["Lombard "]` the city
`"Lombard"` is classified as requiring shipping although the claimed
trim-both-sides matching calls it local. -/
theorem C3_city_matching_counterexample :
    (OrderProcessor.init (some ["Lombard "])).is_local_delivery "Lombard" = false ∧
    specIsLocalBothTrimmed ["Lombard "] "Lombard" := by
  refine ⟨by decide, by decide, "Lombard ", by decide, by decide⟩

/-- C3 (amended): for a non-empty configured list, `requires_shipping` is
false exactly when the trimmed-and-lowercased city equals the lowercase of
some configured name: the query city is trimmed and lowercased, while
configured names are only lowercased, never trimmed.  (An empty configured
list falls back to the built-in default list, and an empty city is never
local.) -/
theorem C3_amended_city_matching (cities : List String) (city : String) (h : cities ≠ []) :
    (OrderProcessor.init (some cities)).is_local_delivery city = true ↔
      (city ≠ "" ∧ ∃ c ∈ cities, pyStrip (pyLower city) = pyLower c) := by
  have hne : cities.isEmpty = false := by
    cases cities with
    | nil => exact absurd rfl h
    | cons x xs => rfl
  unfold OrderProcessor.is_local_delivery OrderProcessor.init
  simp only [hne, Bool.false_eq_true, if_false]
  by_cases hc : city = ""
  · simp [hc]
  · simp only [hc, if_neg, if_false, ite_false, decide_eq_true_eq, List.mem_map, ne_eq,
      not_false_eq_true, true_and]
    constructor
    · rintro ⟨c, hcm, hce⟩
      exact ⟨c, hcm, hce.symm⟩
    · rintro ⟨c, hcm, hce⟩
      exact ⟨c, hcm, hce.symm⟩

/-- Witness for the amended C3: a padded, upper-case city matches a
configured name. -/
theorem C3_amended_city_matching_witness :
    ((OrderProcessor.init (some ["Lombard"])).is_local_delivery " LOMBARD " = true ↔
      (" LOMBARD " ≠ "" ∧ ∃ c ∈ ["Lombard"], pyStrip (pyLower " LOMBARD ") = pyLower c)) :=
  C3_amended_city_matching ["Lombard"] " LOMBARD " (by decide)

/-! ## C4 -/

/-- C4: the transformer is total (it never raises); an order with no
shipping address or an empty line-items list contributes zero records and
produces a diagnostic, and skipping it leaves the full pipeline output for
the remaining orders unchanged. -/
theorem C4_skip_invalid_orders (p : OrderProcessor) (order : Order)
    (l1 l2 : List Order) (h : order.shipping_address = none ∨ order.line_items = []) :
    (_process_single_order p order).1 = [] ∧
    (_process_single_order p order).2 ≠ [] ∧
    create_stickers_from_orders p (l1 ++ order :: l2) =
      create_stickers_from_orders p (l1 ++ l2) := by
  have hempty : (_process_single_order p order).1 = [] ∧
      (_process_single_order p order).2 ≠ [] := by
    rcases h with h | h
    · simp [_process_single_order, h]
    · unfold _process_single_order
      cases hs : order.shipping_address with
      | none => simp
      | some a => simp [h]
  refine ⟨hempty.1, hempty.2, ?_⟩
  unfold create_stickers_from_orders
  congr 1
  simp [hempty.1]

/-- Witness for C4 at an order with no shipping address. -/
theorem C4_skip_invalid_orders_witness :
    (_process_single_order procDefault orderNoShip).1 = [] ∧
    (_process_single_order procDefault orderNoShip).2 ≠ [] ∧
    create_stickers_from_orders procDefault ([orderSample] ++ orderNoShip :: []) =
      create_stickers_from_orders procDefault ([orderSample] ++ []) :=
  C4_skip_invalid_orders procDefault orderNoShip [orderSample] [] (Or.inl rfl)

/-! ## C5 -/

theorem propertyParts_eq_filterMap (props : List LineProp) :
    propertyParts props = props.filterMap (fun pr =>
      if pr.value.getD "" ≠ "" ∧ pyStartswith (pr.name.getD "") "_" = false then
        some (pr.value.getD "")
      else none) := by
  induction props with
  | nil => rfl
  | cons pr rest ih =>
    by_cases hv : pr.value.getD "" = ""
    · simp [propertyParts, List.filterMap_cons, hv, ih]
    · by_cases hn : pyStartswith (pr.name.getD "") "_" = true
      · simp [propertyParts, List.filterMap_cons, hv, hn, ih]
      · simp [propertyParts, List.filterMap_cons, hv, hn, ih]

/-- C5: `variant_info` equals the `" / "`-join of the variant label (when
non-empty and not `"Default Title"`) followed by each property value whose
name does not start with an underscore and whose value is non-empty, in
property-list order; the empty join is the empty string. -/
theorem C5_variant_info (item : LineItem) : variantInfoOf item = variantInfoSpec item := by
  simp only [variantInfoOf, variantInfoSpec, propertyParts_eq_filterMap]
  set label := item.variant_title.getD "" with hlabel
  set pp := item.properties.filterMap (fun pr =>
      if pr.value.getD "" ≠ "" ∧ pyStartswith (pr.name.getD "") "_" = false then
        some (pr.value.getD "")
      else none) with hpp
  have hv0 : (if ((label != "") && (label != "Default Title")) = true then [label] else []) =
      (if label ≠ "" ∧ label ≠ "Default Title" then [label] else []) := by
    by_cases h1 : label = ""
    · simp [h1]
    · by_cases h2 : label = "Default Title"
      · simp [h1, h2]
      · simp [h1, h2]
  rw [hv0]
  set vp0 := if label ≠ "" ∧ label ≠ "Default Title" then [label] else [] with hvp0
  have hmerge : (if pp.isEmpty then vp0 else vp0 ++ pp) = vp0 ++ pp := by
    cases pp with
    | nil => simp
    | cons x xs => rfl
  rw [hmerge]
  cases h : vp0 ++ pp with
  | nil => simp [joinSep]
  | cons x xs => simp [List.isEmpty]

/-! ## C6 -/

theorem grindScan_eq_find (text : String) :
    ∀ l : List String, grindScan text l =
      (l.find? fun g => pyIn (pyLower g) text).map normalizeGrind := by
  intro l
  induction l with
  | nil => rfl
  | cons g rest ih =>
    by_cases hg : pyIn (pyLower g) text = true
    · simp [grindScan, hg]
    · simp [grindScan, hg, ih]

theorem normalizeGrind_canonical :
    ∀ g ∈ GRIND_TYPES, normalizeGrind g ∈ CANONICAL_GRINDS := by decide

/-- C6: `extract_grind_type` scans the fixed pattern list in its fixed
order over the lowercased concatenation of `variant_info` and
`product_name`, returns the canonical form of the first pattern occurring
as a substring — always one of the four canonical labels — and returns
none exactly when no pattern occurs. -/
theorem C6_extract_grind (v p : String) :
    (extract_grind_type v p =
      (GRIND_TYPES.find? fun g => pyIn (pyLower g) (pyLower (v ++ " " ++ p))).map
        normalizeGrind) ∧
    (extract_grind_type v p = none ↔
      ∀ g ∈ GRIND_TYPES, ¬ pyIn (pyLower g) (pyLower (v ++ " " ++ p)) = true) ∧
    ∀ s : String, extract_grind_type v p = some s → s ∈ CANONICAL_GRINDS := by
  have h1 : extract_grind_type v p =
      (GRIND_TYPES.find? fun g => pyIn (pyLower g) (pyLower (v ++ " " ++ p))).map
        normalizeGrind :=
    grindScan_eq_find (pyLower (v ++ " " ++ p)) GRIND_TYPES
  refine ⟨h1, ?_, ?_⟩
  · rw [h1, Option.map_eq_none']
    exact List.find?_eq_none
  · intro s hs
    rw [h1, Option.map_eq_some'] at hs
    obtain ⟨g, hg, hgs⟩ := hs
    rw [← hgs]
    exact normalizeGrind_canonical g (List.mem_of_find?_eq_some hg)

/-- Witness for C6 at the spec's example input. -/
theorem C6_extract_grind_witness :
    extract_grind_type "Medium Roast / Whole Bean" "Any Product" = some "Whole Bean" ∧
    "Whole Bean" ∈ CANONICAL_GRINDS :=
  ⟨by decide,
    (C6_extract_grind "Medium Roast / Whole Bean" "Any Product").2.2 "Whole Bean" (by decide)⟩

/-! ## C7 -/

theorem placeSticker_newPage (spec : GridSpec) (idx : Nat) :
    (placeSticker spec idx).newPage =
      decide (0 < idx ∧ idx % (spec.columns * spec.rows) = 0) := rfl

theorem drawAux_countP (spec : GridSpec) :
    ∀ (l : List StickerData) (i : Nat),
      ((drawAux spec i l).countP fun ps => ps.1.newPage) = boundariesFrom spec i l.length := by
  intro l
  induction l with
  | nil => intro i; rfl
  | cons s rest ih =>
    intro i
    simp only [drawAux, List.countP_cons, ih, List.length_cons, boundariesFrom]
    cases h : (placeSticker spec i).newPage
    · simp [h]
    · simp [h]
      omega

theorem boundariesFrom_succ_right (spec : GridSpec) :
    ∀ (n i : Nat), boundariesFrom spec i (n + 1) =
      boundariesFrom spec i n +
        (if (placeSticker spec (i + n)).newPage then 1 else 0) := by
  intro n
  induction n with
  | zero => intro i; simp [boundariesFrom]
  | succ n ih =>
    intro i
    have h3 : i + 1 + n = i + (n + 1) := by omega
    calc boundariesFrom spec i (n + 1 + 1)
        = (if (placeSticker spec i).newPage then 1 else 0)
            + boundariesFrom spec (i + 1) (n + 1) := rfl
      _ = (if (placeSticker spec i).newPage then 1 else 0)
            + (boundariesFrom spec (i + 1) n
                + (if (placeSticker spec (i + 1 + n)).newPage then 1 else 0)) := by
          rw [ih (i + 1)]
      _ = boundariesFrom spec i (n + 1)
            + (if (placeSticker spec (i + (n + 1))).newPage then 1 else 0) := by
          rw [h3]
          show (if (placeSticker spec i).newPage then 1 else 0)
              + (boundariesFrom spec (i + 1) n + _)
            = (if (placeSticker spec i).newPage then 1 else 0)
              + boundariesFrom spec (i + 1) n + _
          omega

theorem pages_eq_ceil (spec : GridSpec) (h : 0 < spec.columns * spec.rows) :
    ∀ n : Nat, boundariesFrom spec 0 n + (if n = 0 then 0 else 1) =
      (n + spec.columns * spec.rows - 1) / (spec.columns * spec.rows) := by
  intro n
  induction n with
  | zero =>
    simp only [boundariesFrom, if_pos rfl, Nat.add_zero, Nat.zero_add]
    symm
    apply Nat.div_eq_of_lt
    omega
  | succ n ih =>
    rw [boundariesFrom_succ_right]
    have hnp : (placeSticker spec (0 + n)).newPage =
        decide (0 < n ∧ n % (spec.columns * spec.rows) = 0) := by
      rw [placeSticker_newPage]
      simp
    by_cases hn : n = 0
    · subst hn
      simp only [hnp, boundariesFrom]
      have h1 : (0 + 1 + spec.columns * spec.rows - 1) = spec.columns * spec.rows := by omega
      rw [h1, Nat.div_self h]
      simp
    · have hge : 1 ≤ n := by omega
      have hIH : boundariesFrom spec 0 n = (n - 1) / (spec.columns * spec.rows) := by
        rw [if_neg hn] at ih
        have hdiv : n + spec.columns * spec.rows - 1 = (n - 1) + spec.columns * spec.rows := by
          omega
        rw [hdiv, Nat.add_div_right _ h] at ih
        omega
      have hdiv2 : n + 1 + spec.columns * spec.rows - 1 = n + spec.columns * spec.rows := by
        omega
      rw [hdiv2, Nat.add_div_right _ h, hIH, if_neg (by omega : ¬ n + 1 = 0)]
      by_cases hd : n % (spec.columns * spec.rows) = 0
      · have hdd : spec.columns * spec.rows ∣ n := Nat.dvd_of_mod_eq_zero hd
        have hsucc : n / (spec.columns * spec.rows) =
            (n - 1) / (spec.columns * spec.rows) + 1 := by
          have h2 := Nat.succ_div_of_dvd (a := n - 1) (b := spec.columns * spec.rows)
            (by rw [Nat.sub_add_cancel hge]; exact hdd)
          rw [Nat.sub_add_cancel hge] at h2
          omega
        have hb : (placeSticker spec (0 + n)).newPage = true := by
          rw [hnp]
          simp [hd]
          omega
        rw [hb]
        simp
        omega
      · have hnd : ¬ spec.columns * spec.rows ∣ n := fun hc => hd (Nat.mod_eq_zero_of_dvd hc)
        have hsucc : n / (spec.columns * spec.rows) = (n - 1) / (spec.columns * spec.rows) := by
          have h2 := Nat.succ_div_of_not_dvd (a := n - 1) (b := spec.columns * spec.rows)
            (by rw [Nat.sub_add_cancel hge]; exact hnd)
          rw [Nat.sub_add_cancel hge] at h2
          omega
        have hb : (placeSticker spec (0 + n)).newPage = false := by
          rw [hnp]
          simp [hd]
        rw [hb]
        simp
        omega

/-- C7: for a sticker list of length n, the layout produces exactly
ceil(n / labels_per_page) pages — zero pages for the empty list — and a
page break is emitted exactly when a label's position on its page is 0 and
its linear index is greater than 0. -/
theorem C7_pagination (spec : GridSpec) (stickers : List StickerData)
    (h : 0 < spec.columns * spec.rows) :
    pagesProduced spec stickers =
      (stickers.length + spec.columns * spec.rows - 1) / (spec.columns * spec.rows) ∧
    (stickers = [] → pagesProduced spec stickers = 0) ∧
    ∀ idx : Nat, (placeSticker spec idx).newPage = true ↔
      (0 < idx ∧ idx % (spec.columns * spec.rows) = 0) := by
  have hbridge : pagesProduced spec stickers =
      boundariesFrom spec 0 stickers.length + (if stickers.length = 0 then 0 else 1) := by
    unfold pagesProduced _draw_stickers
    rw [drawAux_countP]
    congr 1
    cases stickers with
    | nil => rfl
    | cons s rest => rfl
  refine ⟨?_, ?_, ?_⟩
  · rw [hbridge]
    exact pages_eq_ceil spec h stickers.length
  · intro he
    subst he
    rfl
  · intro idx
    rw [placeSticker_newPage]
    simp

/-- Witness for C7 on the standard 3-by-10 grid: 31 stickers need 2 pages. -/
theorem C7_pagination_witness :
    0 < AVERY_5160.columns * AVERY_5160.rows ∧
    pagesProduced AVERY_5160 (List.replicate 31 sampleSticker) = 2 :=
  ⟨by decide,
    ((C7_pagination AVERY_5160 (List.replicate 31 sampleSticker) (by decide)).1).trans
      (by decide)⟩
